import Mathlib

/-!
Verification of the bjarkan CLI and pairing agent.

The definitions below are a shallow embedding of `src/bjarkan/cli.py` and
`src/bjarkan/agent.py`. Printing is modelled as a list of emitted values,
Python `None` return values as `Option.none`, and a D-Bus method that may
raise an agent error as a computation in `Except`. The process event loop
handle (`mainloop`), which is created by process bootstrap code outside
these two modules, is modelled from the spec as an explicit `LoopState`.
-/

namespace Bjarkan

/-- A JSON value as produced by `json.dumps` in cli.py. Object fields keep
insertion order, matching Python dict semantics. -/
inductive Json where
  | str (s : String)
  | int (n : Int)
  | bool (b : Bool)
  | arr (elems : List Json)
  | obj (fields : List (String × Json))

/-- Field names of a JSON object, in order; empty for non-objects. -/
def Json.keys : Json → List String
  | .obj fields => fields.map Prod.fst
  | _ => []

/-- Look up a field of a JSON object by name. -/
def Json.getField : Json → String → Option Json
  | .obj fields, k => fields.lookup k
  | _, _ => none

/-- One value printed to stdout: either a JSON document or a plain text line. -/
inductive Emitted where
  | js (j : Json)
  | text (s : String)

/-- Rendering of `str(b)` for a Python bool, as used by the `{!s}` format. -/
def pyStr (b : Bool) : String := if b then "True" else "False"

/-- One device record as consumed by `format_device_data`: the six attributes
cli.py reads from each device dictionary. The source attribute named `alias`
is rendered here as `alias_` because `alias` is a reserved word in Lean. -/
structure Device where
  address : String
  rssi : Int
  icon : String
  paired : Bool
  connected : Bool
  alias_ : String

/-- The per-device dictionary built in the JSON branch of
`format_device_data`, with its six fields inserted in source order. -/
def device_data (device : Device) : Json :=
  Json.obj
    [ ("address", Json.str device.address)
    , ("rssi", Json.int device.rssi)
    , ("icon", Json.str device.icon)
    , ("paired", Json.bool device.paired)
    , ("connected", Json.bool device.connected)
    , ("alias", Json.str device.alias_) ]

/-- Embedding of `format_device_data` from cli.py. In JSON mode it prints one
JSON array holding one six-field record per device, in input order; in text
mode it prints one line per device. The Python function falls off the end of
both branches, so its return value is `None`, modelled as `none`. -/
def format_device_data (devices : List Device) (format_json : Bool) :
    List Emitted × Option Int :=
  if format_json then
    ([Emitted.js (Json.arr (devices.map device_data))], none)
  else
    (devices.map (fun device => Emitted.text
      (device.address ++ " " ++ toString device.rssi ++ " "
        ++ pyStr device.paired ++ " " ++ pyStr device.connected ++ " "
        ++ device.icon ++ " " ++ device.alias_)),
     none)

/-- The result dictionary a DeviceManager operation hands to the CLI;
cli.py reads the keys `result` and `code` from it. -/
structure CommandResult where
  result : String
  code : Int

/-- The JSON document printed by the JSON branch of `format_results`:
`json.dumps` of a dict with the keys `result` and `code`, in that order. -/
def format_results_json (results : CommandResult) : Json :=
  Json.obj [("result", Json.str results.result), ("code", Json.int results.code)]

/-- Embedding of `format_results` from cli.py. Both branches only print and
neither branch has a return statement, so the Python return value is `None`,
modelled as `none`. -/
def format_results (results : CommandResult) (format_json : Bool) :
    List Emitted × Option Int :=
  if format_json then
    ([Emitted.js (format_results_json results)], none)
  else
    ([Emitted.text
        ("result: " ++ results.result ++ ", code: " ++ toString results.code)],
     none)

/-- Embedding of the `pair` subcommand handler: it forwards the DeviceManager
outcome to `format_results` and returns that call's value. The outcome itself
is produced by `device_manager.pair_device`, outside these modules, so it is
taken as an input. -/
def pair (op_result : CommandResult) (format_json : Bool) :
    List Emitted × Option Int :=
  format_results op_result format_json

/-- Embedding of the `unpair` subcommand handler, analogous to `pair`. -/
def unpair (op_result : CommandResult) (format_json : Bool) :
    List Emitted × Option Int :=
  format_results op_result format_json

/-- Embedding of the `connect` subcommand handler, analogous to `pair`. -/
def connect (op_result : CommandResult) (format_json : Bool) :
    List Emitted × Option Int :=
  format_results op_result format_json

/-- Embedding of the `disconnect` subcommand handler, analogous to `pair`. -/
def disconnect (op_result : CommandResult) (format_json : Bool) :
    List Emitted × Option Int :=
  format_results op_result format_json

/-- Truthiness of the Python value that `main` tests with `if result:`. -/
def py_truthy : Option Int → Bool
  | none => false
  | some v => v != 0

/-- Embedding of the tail of `main` in cli.py: `result = args.func(args)`,
then `if result: return result` else `return 0`. When the program is
installed as a console script this return value is the process exit status;
when run as a plain script the value is discarded and the status is 0
anyway. -/
def main_exit_code (func_result : Option Int) : Int :=
  if py_truthy func_result then func_result.getD 0 else 0

/-- State of the process-wide event loop. -/
inductive LoopState where
  | running
  | stopped
deriving DecidableEq

/-- Modelled from the spec: the process event loop handle (the `mainloop`
name that `Release` refers to), owned by the Process Event Loop Lifecycle
component whose source is not under src/. Its `quit` method requests the
loop to stop. -/
def MainLoop.quit (_loop : LoopState) : LoopState := LoopState.stopped

/-- An error a BlueZ Agent1 method could raise back to the management
service (rejection or cancellation). The handlers in agent.py never
construct one. -/
inductive AgentError where
  | rejected
  | canceled
deriving DecidableEq

/-- The `Agent` object of agent.py: its only mutable state is the
`exit_on_release` attribute. -/
structure Agent where
  exit_on_release : Bool
deriving DecidableEq

/-- A newly constructed `Agent`: the class attribute `exit_on_release = True`
is its initial value before any mutation. -/
def Agent.init : Agent := { exit_on_release := true }

/-- Embedding of `Agent.set_exit_on_release`: store the argument in the
`exit_on_release` attribute. -/
def Agent.set_exit_on_release (self : Agent) (exit_on_release : Bool) : Agent :=
  { self with exit_on_release := exit_on_release }

/-- Embedding of `Agent.Release`: `if self.exit_on_release: mainloop.quit()`.
The body assigns nothing on `self` and raises nothing, so the handler
returns `ok` with the agent unchanged and the (possibly stopped) loop. -/
def Agent.Release (self : Agent) (loop : LoopState) :
    Except AgentError (Agent × LoopState) :=
  if self.exit_on_release then Except.ok (self, MainLoop.quit loop)
  else Except.ok (self, loop)

/-- Embedding of `Agent.DisplayPinCode`: print the formatted line naming the
device and the PIN code, touch no agent state, and return `None`. -/
def Agent.DisplayPinCode (self : Agent) (device : String) (pincode : String) :
    Except AgentError (Agent × List String) :=
  Except.ok (self, ["DisplayPinCode (" ++ device ++ ", " ++ pincode ++ ")"])

/-- Embedding of `Agent.RequestConfirmation`: print the formatted line naming
the device and the passkey, touch no agent state, and return `None`, which
the management service reads as accepting the passkey. -/
def Agent.RequestConfirmation (self : Agent) (device : String) (passkey : Nat) :
    Except AgentError (Agent × List String) :=
  Except.ok (self, ["RequestConfirmation (" ++ device ++ ", " ++ toString passkey ++ ")"])

/-- Example device record from the end-to-end scan scenario of the spec. -/
def scan_example : Device :=
  { address := "AA:BB:CC:DD:EE:01", rssi := -60, icon := "audio-card"
  , paired := false, connected := false, alias_ := "Speaker" }

/-- C1, counterexample: on the concrete success outcome, the structured
operation output emitted by `pair` is one JSON object whose field names are
`result` and `code`; the object has no field named `message`, so the claimed
field pair `message`/`code` is wrong. -/
theorem format_results_no_message_field :
    (pair { result := "success", code := 0 } true).1
      = [Emitted.js (format_results_json { result := "success", code := 0 })]
    ∧ Json.keys (format_results_json { result := "success", code := 0 })
      = ["result", "code"]
    ∧ "message" ∉ Json.keys (format_results_json { result := "success", code := 0 }) :=
  ⟨rfl, rfl, by decide⟩

/-- C1, amended: for every operation outcome, each of `pair`, `unpair`,
`connect` and `disconnect` emits in machine-readable mode exactly one JSON
object whose field names are exactly `result` and `code`, holding the
outcome string and the integer code; there is no `message` field. -/
theorem lifecycle_structured_output (r : CommandResult) :
    (pair r true).1 = [Emitted.js (format_results_json r)]
    ∧ (unpair r true).1 = [Emitted.js (format_results_json r)]
    ∧ (connect r true).1 = [Emitted.js (format_results_json r)]
    ∧ (disconnect r true).1 = [Emitted.js (format_results_json r)]
    ∧ Json.keys (format_results_json r) = ["result", "code"]
    ∧ Json.getField (format_results_json r) "result" = some (Json.str r.result)
    ∧ Json.getField (format_results_json r) "code" = some (Json.int r.code)
    ∧ Json.getField (format_results_json r) "message" = none :=
  ⟨rfl, rfl, rfl, rfl, rfl, rfl, rfl, rfl⟩

/-- Instantiation of `lifecycle_structured_output` at a concrete failure
outcome. -/
theorem lifecycle_structured_output_witness :
    Json.keys (format_results_json { result := "not paired", code := 3 })
      = ["result", "code"]
    ∧ Json.getField (format_results_json { result := "not paired", code := 3 }) "message"
      = none :=
  ⟨(lifecycle_structured_output { result := "not paired", code := 3 }).2.2.2.2.1,
   (lifecycle_structured_output { result := "not paired", code := 3 }).2.2.2.2.2.2.2⟩

/-- C2, code bug: at a concrete failing outcome (code 1) of any of the four
lifecycle subcommands, the handler returns `None` because `format_results`
never returns a value, so `main` falls through `if result:` and returns 0.
The process exit status is 0, not the operation's nonzero code. -/
theorem cli_exit_zero_on_failure :
    main_exit_code (pair { result := "org.bluez.Error.Failed", code := 1 } true).2 = 0
    ∧ main_exit_code (unpair { result := "org.bluez.Error.Failed", code := 1 } true).2 = 0
    ∧ main_exit_code (connect { result := "org.bluez.Error.Failed", code := 1 } true).2 = 0
    ∧ main_exit_code (disconnect { result := "org.bluez.Error.Failed", code := 1 } true).2 = 0 := by
  decide

/-- C3: `Release` stops the event loop exactly when `exit_on_release` is
true. With the flag set it returns the loop stopped; with the flag clear it
returns the loop unchanged, so a running loop keeps running. -/
theorem release_flag_controls_loop (a : Agent) (loop : LoopState) :
    (a.exit_on_release = true →
      Agent.Release a loop = Except.ok (a, LoopState.stopped))
    ∧ (a.exit_on_release = false →
      Agent.Release a loop = Except.ok (a, loop)) := by
  constructor <;> intro h <;> simp [Agent.Release, MainLoop.quit, h]

/-- Instantiation of `release_flag_controls_loop` with both flag values and a
running loop. -/
theorem release_flag_controls_loop_witness :
    Agent.Release { exit_on_release := true } LoopState.running
      = Except.ok ({ exit_on_release := true }, LoopState.stopped)
    ∧ Agent.Release { exit_on_release := false } LoopState.running
      = Except.ok ({ exit_on_release := false }, LoopState.running) :=
  ⟨(release_flag_controls_loop { exit_on_release := true } LoopState.running).1 rfl,
   (release_flag_controls_loop { exit_on_release := false } LoopState.running).2 rfl⟩

/-- C4: for every agent state and loop state, `Release` returns normally:
the handler yields `ok` (empty D-Bus reply, no return value) and never
raises an `AgentError` to the management service. -/
theorem release_never_raises (a : Agent) (loop : LoopState) :
    ∃ st, Agent.Release a loop = Except.ok st := by
  unfold Agent.Release
  split <;> exact ⟨_, rfl⟩

/-- Instantiation of `release_never_raises` at the default agent and a
running loop. -/
theorem release_never_raises_witness :
    ∃ st, Agent.Release Agent.init LoopState.running = Except.ok st :=
  release_never_raises Agent.init LoopState.running

/-- C5: in machine-readable mode, device-listing output is one JSON array
with one record per input device, in input order, each record carrying
exactly the six fields address, rssi, icon, paired, connected, alias copied
from the corresponding input device. -/
theorem format_device_data_json_records (devices : List Device) :
    ∃ records : List Json,
      (format_device_data devices true).1 = [Emitted.js (Json.arr records)]
      ∧ records.length = devices.length
      ∧ ∀ i : Nat, records[i]? = (devices[i]?).map (fun d => Json.obj
          [ ("address", Json.str d.address)
          , ("rssi", Json.int d.rssi)
          , ("icon", Json.str d.icon)
          , ("paired", Json.bool d.paired)
          , ("connected", Json.bool d.connected)
          , ("alias", Json.str d.alias_) ]) := by
  refine ⟨devices.map device_data, rfl, by simp, ?_⟩
  intro i
  rw [List.getElem?_map]
  rfl

/-- Instantiation of `format_device_data_json_records` at the scan scenario
from the spec. -/
theorem format_device_data_json_records_witness :
    ∃ records : List Json,
      (format_device_data [scan_example] true).1 = [Emitted.js (Json.arr records)]
      ∧ records.length = [scan_example].length
      ∧ ∀ i : Nat, records[i]? = ([scan_example][i]?).map (fun d => Json.obj
          [ ("address", Json.str d.address)
          , ("rssi", Json.int d.rssi)
          , ("icon", Json.str d.icon)
          , ("paired", Json.bool d.paired)
          , ("connected", Json.bool d.connected)
          , ("alias", Json.str d.alias_) ]) :=
  format_device_data_json_records [scan_example]

/-- C6: `RequestConfirmation` emits exactly one line naming the device and
the passkey value and resolves by accepting: it returns `ok` with the agent
unchanged, signalling no rejection and no error. -/
theorem request_confirmation_auto_accepts (a : Agent) (device : String) (passkey : Nat) :
    Agent.RequestConfirmation a device passkey
      = Except.ok (a, ["RequestConfirmation (" ++ device ++ ", " ++ toString passkey ++ ")"]) :=
  rfl

/-- Instantiation of `request_confirmation_auto_accepts` at the passkey
scenario from the spec. -/
theorem request_confirmation_auto_accepts_witness :
    Agent.RequestConfirmation Agent.init "/org/bluez/hci0/dev_AA_BB_CC_DD_EE_01" 123456
      = Except.ok (Agent.init,
          ["RequestConfirmation (/org/bluez/hci0/dev_AA_BB_CC_DD_EE_01, 123456)"]) :=
  request_confirmation_auto_accepts Agent.init "/org/bluez/hci0/dev_AA_BB_CC_DD_EE_01" 123456

/-- C7: `DisplayPinCode` emits exactly one line naming the device and the
PIN value and always succeeds: it returns `ok` with the agent unchanged, for
every input, with no retry and no error. -/
theorem display_pin_code_succeeds (a : Agent) (device : String) (pincode : String) :
    Agent.DisplayPinCode a device pincode
      = Except.ok (a, ["DisplayPinCode (" ++ device ++ ", " ++ pincode ++ ")"]) :=
  rfl

/-- Instantiation of `display_pin_code_succeeds` at a concrete device and
PIN. -/
theorem display_pin_code_succeeds_witness :
    Agent.DisplayPinCode Agent.init "/org/bluez/hci0/dev_AA_BB_CC_DD_EE_01" "1234"
      = Except.ok (Agent.init,
          ["DisplayPinCode (/org/bluez/hci0/dev_AA_BB_CC_DD_EE_01, 1234)"]) :=
  display_pin_code_succeeds Agent.init "/org/bluez/hci0/dev_AA_BB_CC_DD_EE_01" "1234"

/-- C8: a newly created agent has `exit_on_release` equal to true before any
call to the mutator. -/
theorem agent_default_exit_on_release : Agent.init.exit_on_release = true :=
  rfl

/-- C9: `set_exit_on_release` stores exactly its argument in the flag, and
repeating the call with the same argument changes nothing beyond the first
call (the setter is idempotent). -/
theorem set_exit_on_release_idempotent (a : Agent) (b : Bool) :
    (a.set_exit_on_release b).exit_on_release = b
    ∧ (a.set_exit_on_release b).set_exit_on_release b = a.set_exit_on_release b :=
  ⟨rfl, rfl⟩

/-- Instantiation of `set_exit_on_release_idempotent` at the default agent
and the non-default flag value. -/
theorem set_exit_on_release_idempotent_witness :
    (Agent.init.set_exit_on_release false).exit_on_release = false
    ∧ (Agent.init.set_exit_on_release false).set_exit_on_release false
      = Agent.init.set_exit_on_release false :=
  set_exit_on_release_idempotent Agent.init false

/-- C10: the authentication callbacks are frame-preserving on agent state:
for every agent state and all inputs, `DisplayPinCode` and
`RequestConfirmation` return the very agent they were invoked on, so the
`exit_on_release` flag is changed only by the explicit mutator. -/
theorem auth_callbacks_preserve_agent (a : Agent) (device : String)
    (pincode : String) (passkey : Nat) :
    (∃ out, Agent.DisplayPinCode a device pincode = Except.ok (a, out))
    ∧ (∃ out, Agent.RequestConfirmation a device passkey = Except.ok (a, out)) :=
  ⟨⟨_, rfl⟩, ⟨_, rfl⟩⟩

/-- Instantiation of `auth_callbacks_preserve_agent` at an agent with the
flag cleared. -/
theorem auth_callbacks_preserve_agent_witness :
    (∃ out, Agent.DisplayPinCode { exit_on_release := false } "/dev_1" "0000"
      = Except.ok ({ exit_on_release := false }, out))
    ∧ (∃ out, Agent.RequestConfirmation { exit_on_release := false } "/dev_1" 654321
      = Except.ok ({ exit_on_release := false }, out)) :=
  auth_callbacks_preserve_agent { exit_on_release := false } "/dev_1" "0000" 654321

end Bjarkan
